import Mathlib

/-!
Shallow embedding of `integration_test/src/lib.rs`: the node-configuration
resolver (`_new` and its six convenience variants), the scenario driver
(`fund_wallet`, `mine_a_block`, `create_mempool_transaction`,
`create_mined_transaction`) and the utility `random_tmp_file`.

The external collaborators (the `node` crate's lifecycle functions, the RPC
client reachable through the node handle, and the `rand` crate) are modelled
abstractly: the RPC client is a record of state-passing functions returning
`Except String`, and every call made through it is logged in an explicit
trace so that "exactly these RPC calls were issued" is provable.  Rust
panics (`expect`, out-of-bounds indexing) are modelled as `Except.error`.
-/

/-- The launch configuration passed to the external lifecycle component
(`node::Conf`), restricted to the two fields this crate consumes: the
optional wallet name and the list of extra command-line arguments. -/
structure Conf where
  wallet : Option String
  args : List String
deriving Repr, DecidableEq

/-- `enum Wallet`: controls the loaded wallet. -/
inductive Wallet where
  /-- Load the default wallet. -/
  | Default
  /-- Load a wallet with custom name. -/
  | Load (name : String)
  /-- Do not load a wallet. -/
  | None
deriving Repr, DecidableEq

/-- The configuration built by `_new` from `node::Conf::default()` (passed
in abstractly as `d`), mirroring the `match wallet` statement and the
conditional `conf.args.push("-txindex")`. -/
def _new_conf (d : Conf) (wallet : Wallet) (txindex : Bool) : Conf :=
  let conf := d
  let conf :=
    match wallet with
    | Wallet.Default => conf
    | Wallet.Load w => { conf with wallet := some w }
    | Wallet.None => { conf with wallet := none }
  if txindex then { conf with args := conf.args ++ ["-txindex"] } else conf

/-- `Rust expect(msg)`: a panic whose message names the failed step and
carries the underlying error, modelled as `Except.error`. -/
def expect (msg : String) : Except String α → Except String α
  | Except.ok a => Except.ok a
  | Except.error e => Except.error (msg ++ ": " ++ e)

/-- `_new`: locates the daemon executable (the result of `node::exe_path()`
is passed in abstractly), builds the launch configuration, and spawns the
node via the external `Node::with_conf` (passed in abstractly). -/
def _new {Node : Type} (exe_path : Except String String)
    (with_conf : String → Conf → Except String Node)
    (d : Conf) (wallet : Wallet) (txindex : Bool) : Except String Node := do
  let exe ← expect "failed to get bitcoind executable" exe_path
  let conf := _new_conf d wallet txindex
  expect "failed to create node" (with_conf exe conf)

/-- Configuration built by `new_with_default_wallet()`. -/
def new_with_default_wallet_conf (d : Conf) : Conf := _new_conf d Wallet.Default false

/-- Configuration built by `new_with_default_wallet_txindex()`. -/
def new_with_default_wallet_txindex_conf (d : Conf) : Conf := _new_conf d Wallet.Default true

/-- Configuration built by `new_with_wallet(wallet)`. -/
def new_with_wallet_conf (d : Conf) (wallet : String) : Conf := _new_conf d (Wallet.Load wallet) false

/-- Configuration built by `new_with_wallet_txindex(wallet)`. -/
def new_with_wallet_txindex_conf (d : Conf) (wallet : String) : Conf := _new_conf d (Wallet.Load wallet) true

/-- Configuration built by `new_no_wallet()`. -/
def new_no_wallet_conf (d : Conf) : Conf := _new_conf d Wallet.None false

/-- Configuration built by `new_no_wallet_txindex()`. -/
def new_no_wallet_txindex_conf (d : Conf) : Conf := _new_conf d Wallet.None true

/-- Modelled from the spec: the external lifecycle component's own default
launch configuration (`node::Conf::default()`, which is not under `src/`).
Per the crate's doc comments ("Returns a handle to a `bitcoind` instance
with \x22default\x22 wallet loaded") and the source comment
`// conf.wallet = Some("default")`, its wallet field is `Some "default"`;
its extra-argument list is irrelevant to the claims that use this value. -/
def default_conf : Conf := { wallet := some "default", args := [] }

/-- Number of blocks to generate when funding wallet. -/
def NBLOCKS : Nat := 101

/-- `const MILLION_SATS: bitcoin::Amount = bitcoin::Amount::from_sat(1000000)`,
in satoshis. -/
def MILLION_SATS : Nat := 1000000

/-- One RPC call issued through the node handle's client, recorded with the
arguments the scenario driver passes. -/
inductive RpcCall (Addr BH : Type) where
  | newAddress
  | generateToAddress (count : Nat) (addr : Addr)
  | sendToAddress (addr : Addr) (amountSat : Nat)
  | bestBlockHash
  | getBlock (hash : BH)
deriving Repr, DecidableEq

/-- The value returned by `send_to_address`: a model of the RPC result whose
`txid()` method parses the returned hex into a transaction id (and can
fail, hence `Except`). -/
structure SendResult (Txid : Type) where
  txid : Except String Txid
deriving Repr

/-- A block as consumed here: `best_block.txdata` is its ordered transaction
sequence (index 0 the coinbase). -/
structure Block (Tx : Type) where
  txdata : List Tx
deriving Repr, DecidableEq

/-- The external RPC client collaborator reachable through the node handle,
as a record of state-passing functions over an abstract daemon state `σ`.
Each method either returns a value and the next daemon state or fails. -/
structure Client (σ Addr BH Tx Txid : Type) where
  new_address : σ → Except String (Addr × σ)
  generate_to_address : Nat → Addr → σ → Except String (List BH × σ)
  send_to_address : Addr → Nat → σ → Except String (SendResult Txid × σ)
  best_block_hash : σ → Except String (BH × σ)
  get_block : BH → σ → Except String (Block Tx × σ)

/-- The instrumented state a scenario operation threads: the daemon state
plus the trace of RPC calls issued so far. -/
def St (σ Addr BH : Type) : Type := σ × List (RpcCall Addr BH)

/-- Issue `new_address` through the client, logging the call. -/
def rpcNewAddress (c : Client σ Addr BH Tx Txid) : St σ Addr BH → Except String (Addr × St σ Addr BH)
  | (s, tr) =>
    match c.new_address s with
    | Except.ok (a, s') => Except.ok (a, (s', tr ++ [RpcCall.newAddress]))
    | Except.error e => Except.error e

/-- Issue `generate_to_address` through the client, logging the call. -/
def rpcGenerateToAddress (c : Client σ Addr BH Tx Txid) (count : Nat) (addr : Addr) :
    St σ Addr BH → Except String (List BH × St σ Addr BH)
  | (s, tr) =>
    match c.generate_to_address count addr s with
    | Except.ok (bhs, s') => Except.ok (bhs, (s', tr ++ [RpcCall.generateToAddress count addr]))
    | Except.error e => Except.error e

/-- Issue `send_to_address` through the client, logging the call. -/
def rpcSendToAddress (c : Client σ Addr BH Tx Txid) (addr : Addr) (amountSat : Nat) :
    St σ Addr BH → Except String (SendResult Txid × St σ Addr BH)
  | (s, tr) =>
    match c.send_to_address addr amountSat s with
    | Except.ok (sr, s') => Except.ok (sr, (s', tr ++ [RpcCall.sendToAddress addr amountSat]))
    | Except.error e => Except.error e

/-- Issue `best_block_hash` through the client, logging the call. -/
def rpcBestBlockHash (c : Client σ Addr BH Tx Txid) : St σ Addr BH → Except String (BH × St σ Addr BH)
  | (s, tr) =>
    match c.best_block_hash s with
    | Except.ok (h, s') => Except.ok (h, (s', tr ++ [RpcCall.bestBlockHash]))
    | Except.error e => Except.error e

/-- Issue `get_block` through the client, logging the call. -/
def rpcGetBlock (c : Client σ Addr BH Tx Txid) (hash : BH) :
    St σ Addr BH → Except String (Block Tx × St σ Addr BH)
  | (s, tr) =>
    match c.get_block hash s with
    | Except.ok (b, s') => Except.ok (b, (s', tr ++ [RpcCall.getBlock hash]))
    | Except.error e => Except.error e

/-- Rust's panicking index operation `l[i]` on a `Vec`: the element when the
index is in bounds, a panic (modelled as an error) otherwise. -/
def indexPanic (l : List α) (i : Nat) : Except String α :=
  match l[i]? with
  | some a => Except.ok a
  | none => Except.error "index out of bounds"

/-- `fn fund_wallet(&self)`: get a new address, generate `NBLOCKS` blocks
to it. -/
def fund_wallet (c : Client σ Addr BH Tx Txid) (st : St σ Addr BH) :
    Except String (Unit × St σ Addr BH) := do
  let (address, st) ← expect "failed to get new address" (rpcNewAddress c st)
  let (_, st) ← expect "failed to generate to address" (rpcGenerateToAddress c NBLOCKS address st)
  pure ((), st)

/-- `fn mine_a_block(&self)`: get a new address, generate 1 block to it. -/
def mine_a_block (c : Client σ Addr BH Tx Txid) (st : St σ Addr BH) :
    Except String (Unit × St σ Addr BH) := do
  let (address, st) ← expect "failed to get new address" (rpcNewAddress c st)
  let (_, st) ← expect "failed to generate to address" (rpcGenerateToAddress c 1 address st)
  pure ((), st)

/-- `fn create_mempool_transaction(&self)`: get a new address, send
`MILLION_SATS` to it, parse the returned txid, return both. -/
def create_mempool_transaction (c : Client σ Addr BH Tx Txid) (st : St σ Addr BH) :
    Except String ((Addr × Txid) × St σ Addr BH) := do
  let (address, st) ← expect "failed to get new address" (rpcNewAddress c st)
  let (sendResult, st) ← expect "failed to send to address" (rpcSendToAddress c address MILLION_SATS st)
  let txid ← expect "failed to convert hex to txid" sendResult.txid
  pure ((address, txid), st)

/-- `fn create_mined_transaction(&self)`: create a mempool transaction, mine
a block, fetch the best block and take `best_block.txdata[1]`. -/
def create_mined_transaction (c : Client σ Addr BH Tx Txid) (st : St σ Addr BH) :
    Except String ((Addr × Tx) × St σ Addr BH) := do
  let ((address, _), st) ← create_mempool_transaction c st
  let (_, st) ← mine_a_block c st
  let (best_block_hash, st) ← expect "best_block_hash" (rpcBestBlockHash c st)
  let (best_block, st) ← expect "best_block" (rpcGetBlock c best_block_hash st)
  let tx ← indexPanic best_block.txdata 1
  pure ((address, tx), st)

/-- The spec's description of `createMinedTransaction`, written from its
words: first call `createMempoolTransaction` obtaining a fresh address and a
transaction id, then call `mineBlock`, then fetch the best block hash and
that block, and return the pair of that same address together with the
transaction at index 1 of the fetched best block's transaction sequence. -/
def createMinedTransactionSpec (c : Client σ Addr BH Tx Txid) (st : St σ Addr BH) :
    Except String ((Addr × Tx) × St σ Addr BH) := do
  let ((freshAddress, _transactionId), st) ← create_mempool_transaction c st
  let ((), st) ← mine_a_block c st
  let (bestHash, st) ← expect "best_block_hash" (rpcBestBlockHash c st)
  let (fetchedBlock, st) ← expect "best_block" (rpcGetBlock c bestHash st)
  let confirmed ← indexPanic fetchedBlock.txdata 1
  pure ((freshAddress, confirmed), st)

/-- A concrete instantiation of the client used to evaluate the general
theorems at concrete inputs: the daemon state is a counter, addresses are
handed out sequentially, every send reports txid 42, and the best block
holds the three transactions 7, 8, 9. -/
def testClient : Client Nat Nat Nat Nat Nat where
  new_address s := Except.ok (s, s + 1)
  generate_to_address _count _addr s := Except.ok ([], s)
  send_to_address _addr _amt s := Except.ok (⟨Except.ok 42⟩, s)
  best_block_hash s := Except.ok (0, s)
  get_block _h s := Except.ok (⟨[7, 8, 9]⟩, s)

/-- Chain-level daemon state for the model client: the chain height and the
next fresh address. -/
structure ModelState where
  height : Nat
  fresh : Nat
deriving Repr, DecidableEq

/-- Modelled from the spec: the external daemon collaborator of section 6,
`generateBlocksTo(count, address)` appends `count` blocks to the chain (so
the height grows by `count`) and `newReceiveAddress()` returns a fresh
address each time.  Used to state consequences about chain height, which
live in the daemon, not in this crate's code. -/
def modelClient : Client ModelState Nat Nat Nat Nat where
  new_address s := Except.ok (s.fresh, { s with fresh := s.fresh + 1 })
  generate_to_address count _addr s := Except.ok (List.range count, { s with height := s.height + count })
  send_to_address _addr _amt s := Except.ok (⟨Except.ok 0⟩, s)
  best_block_hash s := Except.ok (s.height, s)
  get_block _h s := Except.ok (⟨[0, 1]⟩, s)

/-- Full characterization of `fund_wallet`: it calls `new_address`, and on
success `generate_to_address NBLOCKS` at the returned address; the first
failure aborts with the step's message wrapping the untouched error. -/
theorem fund_wallet_eq (c : Client σ Addr BH Tx Txid) (s : σ) (tr : List (RpcCall Addr BH)) :
    fund_wallet c (s, tr) =
      match c.new_address s with
      | Except.error e => Except.error ("failed to get new address: " ++ e)
      | Except.ok (a, s1) =>
        match c.generate_to_address NBLOCKS a s1 with
        | Except.error e => Except.error ("failed to generate to address: " ++ e)
        | Except.ok (_, s2) =>
          Except.ok ((), (s2, tr ++ [RpcCall.newAddress, RpcCall.generateToAddress NBLOCKS a])) := by
  cases h1 : c.new_address s with
  | error e => simp [fund_wallet, rpcNewAddress, expect, h1, Except.bind, bind]
  | ok p =>
    obtain ⟨a, s1⟩ := p
    cases h2 : c.generate_to_address NBLOCKS a s1 with
    | error e =>
      simp [fund_wallet, rpcNewAddress, rpcGenerateToAddress, expect, h1, h2, Except.bind, bind]
    | ok q =>
      obtain ⟨bhs, s2⟩ := q
      simp [fund_wallet, rpcNewAddress, rpcGenerateToAddress, expect, h1, h2, Except.bind, bind,
        pure, Except.pure]

/-- Full characterization of `mine_a_block`: it calls `new_address`, and on
success `generate_to_address 1` at the returned address; the first failure
aborts with the step's message wrapping the untouched error. -/
theorem mine_a_block_eq (c : Client σ Addr BH Tx Txid) (s : σ) (tr : List (RpcCall Addr BH)) :
    mine_a_block c (s, tr) =
      match c.new_address s with
      | Except.error e => Except.error ("failed to get new address: " ++ e)
      | Except.ok (a, s1) =>
        match c.generate_to_address 1 a s1 with
        | Except.error e => Except.error ("failed to generate to address: " ++ e)
        | Except.ok (_, s2) =>
          Except.ok ((), (s2, tr ++ [RpcCall.newAddress, RpcCall.generateToAddress 1 a])) := by
  cases h1 : c.new_address s with
  | error e => simp [mine_a_block, rpcNewAddress, expect, h1, Except.bind, bind]
  | ok p =>
    obtain ⟨a, s1⟩ := p
    cases h2 : c.generate_to_address 1 a s1 with
    | error e =>
      simp [mine_a_block, rpcNewAddress, rpcGenerateToAddress, expect, h1, h2, Except.bind, bind]
    | ok q =>
      obtain ⟨bhs, s2⟩ := q
      simp [mine_a_block, rpcNewAddress, rpcGenerateToAddress, expect, h1, h2, Except.bind, bind,
        pure, Except.pure]

/-- Full characterization of `create_mempool_transaction`: `new_address`,
then `send_to_address` of `MILLION_SATS` to that address, then the txid
conversion; the first failure aborts with the step's message wrapping the
untouched error. -/
theorem create_mempool_transaction_eq (c : Client σ Addr BH Tx Txid) (s : σ)
    (tr : List (RpcCall Addr BH)) :
    create_mempool_transaction c (s, tr) =
      match c.new_address s with
      | Except.error e => Except.error ("failed to get new address: " ++ e)
      | Except.ok (a, s1) =>
        match c.send_to_address a MILLION_SATS s1 with
        | Except.error e => Except.error ("failed to send to address: " ++ e)
        | Except.ok (sr, s2) =>
          match sr.txid with
          | Except.error e => Except.error ("failed to convert hex to txid: " ++ e)
          | Except.ok t =>
            Except.ok ((a, t), (s2, tr ++ [RpcCall.newAddress, RpcCall.sendToAddress a MILLION_SATS])) := by
  cases h1 : c.new_address s with
  | error e => simp [create_mempool_transaction, rpcNewAddress, expect, h1, Except.bind, bind]
  | ok p =>
    obtain ⟨a, s1⟩ := p
    cases h2 : c.send_to_address a MILLION_SATS s1 with
    | error e =>
      simp [create_mempool_transaction, rpcNewAddress, rpcSendToAddress, expect, h1, h2,
        Except.bind, bind]
    | ok q =>
      obtain ⟨sr, s2⟩ := q
      cases h3 : sr.txid with
      | error e =>
        simp [create_mempool_transaction, rpcNewAddress, rpcSendToAddress, expect, h1, h2, h3,
          Except.bind, bind]
      | ok t =>
        simp [create_mempool_transaction, rpcNewAddress, rpcSendToAddress, expect, h1, h2, h3,
          Except.bind, bind, pure, Except.pure]

/-- Characterization of `create_mined_transaction` in terms of its phases:
the mempool-transaction step, the mining step, the two block fetches, and
the positional access `txdata[1]`, each failure aborting the rest. -/
theorem create_mined_transaction_eq (c : Client σ Addr BH Tx Txid) (st : St σ Addr BH) :
    create_mined_transaction c st =
      match create_mempool_transaction c st with
      | Except.error e => Except.error e
      | Except.ok ((a, _t), st1) =>
        match mine_a_block c st1 with
        | Except.error e => Except.error e
        | Except.ok (_, (s2, tr2)) =>
          match c.best_block_hash s2 with
          | Except.error e => Except.error ("best_block_hash: " ++ e)
          | Except.ok (bh, s3) =>
            match c.get_block bh s3 with
            | Except.error e => Except.error ("best_block: " ++ e)
            | Except.ok (blk, s4) =>
              match blk.txdata[1]? with
              | none => Except.error "index out of bounds"
              | some tx =>
                Except.ok ((a, tx), (s4, tr2 ++ [RpcCall.bestBlockHash, RpcCall.getBlock bh])) := by
  cases h1 : create_mempool_transaction c st with
  | error e => simp [create_mined_transaction, h1, Except.bind, bind]
  | ok p =>
    obtain ⟨⟨a, t⟩, st1⟩ := p
    cases h2 : mine_a_block c st1 with
    | error e => simp [create_mined_transaction, h1, h2, Except.bind, bind]
    | ok q =>
      obtain ⟨u, s2, tr2⟩ := q
      cases h3 : c.best_block_hash s2 with
      | error e =>
        simp [create_mined_transaction, h1, h2, h3, rpcBestBlockHash, expect, Except.bind, bind]
      | ok r =>
        obtain ⟨bh, s3⟩ := r
        cases h4 : c.get_block bh s3 with
        | error e =>
          simp [create_mined_transaction, h1, h2, h3, h4, rpcBestBlockHash, rpcGetBlock, expect,
            Except.bind, bind]
        | ok w =>
          obtain ⟨blk, s4⟩ := w
          cases h5 : blk.txdata[1]? with
          | none =>
            simp [create_mined_transaction, h1, h2, h3, h4, h5, rpcBestBlockHash, rpcGetBlock,
              indexPanic, expect, Except.bind, bind]
          | some tx =>
            simp [create_mined_transaction, h1, h2, h3, h4, h5, rpcBestBlockHash, rpcGetBlock,
              indexPanic, expect, Except.bind, bind, pure, Except.pure]

/-- Models `rand::thread_rng().sample_iter(&Alphanumeric)`: the `rand`
crate's `Alphanumeric` distribution samples uniformly from the 62 ASCII
letters and digits; the generator state is abstracted as the sample stream
`g`, giving for each sample index a choice among the 62 characters. -/
def ALPHANUMERIC_CHARS : List Char :=
  "ABCDEFGHIJKLMNOPQRSTUVWXYZabcdefghijklmnopqrstuvwxyz0123456789".toList

/-- The `i`-th character drawn from the `Alphanumeric` sample stream `g`. -/
def sample_alphanumeric (g : Nat → Fin 62) (i : Nat) : Char :=
  ALPHANUMERIC_CHARS.getD (g i).val 'A'

/-- `fn random_tmp_file() -> PathBuf`: collect the first 7 characters of the
alphanumeric sample stream into a file name and push it onto the system
temporary directory.  A `PathBuf` is modelled as its list of components;
`std::env::temp_dir()` is passed in abstractly as `temp_dir`.  The function
only computes a path — it has no filesystem effect. -/
def random_tmp_file (temp_dir : List String) (g : Nat → Fin 62) : List String :=
  let file : String := String.mk ((List.range 7).map (sample_alphanumeric g))
  temp_dir ++ [file]

/-- Every character the `Alphanumeric` model can produce is alphanumeric. -/
theorem sample_alphanumeric_isAlphanum (g : Nat → Fin 62) (i : Nat) :
    (sample_alphanumeric g i).isAlphanum = true := by
  have h : ∀ k : Fin 62, (ALPHANUMERIC_CHARS.getD k.val 'A').isAlphanum = true := by decide
  exact h (g i)

/-- C1: for every client and starting state, `create_mined_transaction`
equals the spec's composition: first `create_mempool_transaction` obtaining
a fresh address and a transaction id, then `mine_a_block`, then fetch the
best block hash and that block, and return that same address paired with
the transaction at index 1 of the fetched block's transaction sequence. -/
theorem create_mined_transaction_refines_spec (c : Client σ Addr BH Tx Txid) (st : St σ Addr BH) :
    create_mined_transaction c st = createMinedTransactionSpec c st := rfl

/-- C2: for every default configuration and index flag, the configuration
built by `_new` has an empty wallet field for `Wallet.None`, exactly the
requested name for `Wallet.Load`, and the external default's own value,
untouched, for `Wallet.Default`. -/
theorem wallet_intent_resolution (d : Conf) (txindex : Bool) :
    (_new_conf d Wallet.None txindex).wallet = none ∧
    (∀ name, (_new_conf d (Wallet.Load name) txindex).wallet = some name) ∧
    (_new_conf d Wallet.Default txindex).wallet = d.wallet := by
  cases txindex <;> exact ⟨rfl, fun _ => rfl, rfl⟩

/-- C3: across all six node-construction variants, "-txindex" is appended
to the extra-argument list exactly once when the index-enabling variant is
requested, and the list is left unchanged otherwise. -/
theorem txindex_flag_appended_iff (d : Conf) (name : String) :
    (new_with_default_wallet_conf d).args = d.args ∧
    (new_with_default_wallet_txindex_conf d).args = d.args ++ ["-txindex"] ∧
    (new_with_wallet_conf d name).args = d.args ∧
    (new_with_wallet_txindex_conf d name).args = d.args ++ ["-txindex"] ∧
    (new_no_wallet_conf d).args = d.args ∧
    (new_no_wallet_txindex_conf d).args = d.args ++ ["-txindex"] :=
  ⟨rfl, rfl, rfl, rfl, rfl, rfl⟩

/-- C9: `Wallet.Load ""` is not silently collapsed into the default-wallet
case: the built configuration's wallet field is exactly `some ""`, while the
`Wallet.Default` configuration keeps the external default (`some "default"`),
and the two wallet fields differ. -/
theorem empty_wallet_name_distinct (t : Bool) :
    (_new_conf default_conf (Wallet.Load "") t).wallet = some "" ∧
    (_new_conf default_conf Wallet.Default t).wallet = some "default" ∧
    (_new_conf default_conf (Wallet.Load "") t).wallet ≠
      (_new_conf default_conf Wallet.Default t).wallet := by
  cases t <;> exact ⟨rfl, rfl, by decide⟩

/-- C10: for every temporary directory and every random-generator stream,
`random_tmp_file` returns the temporary directory extended by one freshly
sampled file name of exactly 7 alphanumeric characters. -/
theorem random_tmp_file_shape (temp_dir : List String) (g : Nat → Fin 62) :
    ∃ file : String, random_tmp_file temp_dir g = temp_dir ++ [file] ∧
      file.length = 7 ∧ ∀ c ∈ file.data, c.isAlphanum = true := by
  refine ⟨String.mk ((List.range 7).map (sample_alphanumeric g)), rfl, rfl, ?_⟩
  intro c hc
  obtain ⟨i, _, rfl⟩ := List.mem_map.mp hc
  exact sample_alphanumeric_isAlphanum g i

/-- C4: `NBLOCKS` is 101 and, for every client, `fund_wallet` issues
exactly one `new_address` call followed by exactly one
`generate_to_address` call for 101 blocks paying the freshly returned
address — the trace holds those two calls and nothing else — and returns
no artifact (unit). -/
theorem fund_wallet_rpc_calls :
    NBLOCKS = 101 ∧
    ∀ {σ Addr BH Tx Txid : Type} (c : Client σ Addr BH Tx Txid) (s : σ)
      (tr : List (RpcCall Addr BH)) (a : Addr) (s1 : σ),
      c.new_address s = Except.ok (a, s1) →
      ∀ (bhs : List BH) (s2 : σ), c.generate_to_address 101 a s1 = Except.ok (bhs, s2) →
      fund_wallet c (s, tr) =
        Except.ok ((), (s2, tr ++ [RpcCall.newAddress, RpcCall.generateToAddress 101 a])) := by
  refine ⟨rfl, ?_⟩
  intro σ Addr BH Tx Txid c s tr a s1 h1 bhs s2 h2
  rw [fund_wallet_eq]
  simp [h1, NBLOCKS, h2]

/-- Witness for C4 at the concrete test client. -/
theorem fund_wallet_rpc_calls_witness :
    fund_wallet testClient (0, []) =
      Except.ok ((), (1, [RpcCall.newAddress, RpcCall.generateToAddress 101 0])) :=
  fund_wallet_rpc_calls.2 testClient 0 [] 0 1 rfl [] 1 rfl

/-- C5: `MILLION_SATS` is 1,000,000 and, for every client,
`create_mempool_transaction` issues exactly one `new_address` call and one
`send_to_address` call of 1,000,000 satoshis to that same address — the
trace holds those two calls and nothing else — and returns the address
paired with the transaction id parsed from the send result. -/
theorem create_mempool_transaction_rpc_calls :
    MILLION_SATS = 1000000 ∧
    ∀ {σ Addr BH Tx Txid : Type} (c : Client σ Addr BH Tx Txid) (s : σ)
      (tr : List (RpcCall Addr BH)) (a : Addr) (s1 : σ),
      c.new_address s = Except.ok (a, s1) →
      ∀ (sr : SendResult Txid) (s2 : σ), c.send_to_address a 1000000 s1 = Except.ok (sr, s2) →
      ∀ (t : Txid), sr.txid = Except.ok t →
      create_mempool_transaction c (s, tr) =
        Except.ok ((a, t), (s2, tr ++ [RpcCall.newAddress, RpcCall.sendToAddress a 1000000])) := by
  refine ⟨rfl, ?_⟩
  intro σ Addr BH Tx Txid c s tr a s1 h1 sr s2 h2 t h3
  rw [create_mempool_transaction_eq]
  simp [h1, MILLION_SATS, h2, h3]

/-- Witness for C5 at the concrete test client. -/
theorem create_mempool_transaction_rpc_calls_witness :
    create_mempool_transaction testClient (0, []) =
      Except.ok ((0, 42), (1, [RpcCall.newAddress, RpcCall.sendToAddress 0 1000000])) :=
  create_mempool_transaction_rpc_calls.2 testClient 0 [] 0 1 rfl ⟨Except.ok 42⟩ 1 rfl 42 rfl

/-- C6: for every client, `mine_a_block` issues exactly one `new_address`
call followed by exactly one `generate_to_address` call for exactly 1 block
paying the fresh address; and against the model daemon (whose
`generate_to_address count` grows the chain by `count` blocks) the chain
height after the call is exactly one more than before. -/
theorem mine_a_block_one_block :
    (∀ {σ Addr BH Tx Txid : Type} (c : Client σ Addr BH Tx Txid) (s : σ)
      (tr : List (RpcCall Addr BH)) (a : Addr) (s1 : σ),
      c.new_address s = Except.ok (a, s1) →
      ∀ (bhs : List BH) (s2 : σ), c.generate_to_address 1 a s1 = Except.ok (bhs, s2) →
      mine_a_block c (s, tr) =
        Except.ok ((), (s2, tr ++ [RpcCall.newAddress, RpcCall.generateToAddress 1 a]))) ∧
    (∀ (ms : ModelState) (tr : List (RpcCall Nat Nat)),
      mine_a_block modelClient (ms, tr) =
        Except.ok ((), ({ height := ms.height + 1, fresh := ms.fresh + 1 },
          tr ++ [RpcCall.newAddress, RpcCall.generateToAddress 1 ms.fresh]))) := by
  constructor
  · intro σ Addr BH Tx Txid c s tr a s1 h1 bhs s2 h2
    rw [mine_a_block_eq]
    simp [h1, h2]
  · intro ms tr
    rw [mine_a_block_eq]
    simp [modelClient]

/-- Witness for C6 at the concrete test client. -/
theorem mine_a_block_one_block_witness :
    mine_a_block testClient (5, []) =
      Except.ok ((), (6, [RpcCall.newAddress, RpcCall.generateToAddress 1 5])) :=
  mine_a_block_one_block.1 testClient 5 [] 5 6 rfl [] 6 rfl

/-- C7: in `create_mined_transaction`, once the earlier steps have
succeeded, if the fetched best block holds at least two transactions the
unguarded positional access `txdata[1]` is in bounds and the call returns
that transaction; with fewer than two transactions the same access panics
(out-of-bounds) — there is no bounds check or explicit assertion guarding
it. -/
theorem create_mined_positional_access
    {σ Addr BH Tx Txid : Type} (c : Client σ Addr BH Tx Txid) (st : St σ Addr BH)
    (a : Addr) (t : Txid) (st1 : St σ Addr BH)
    (h1 : create_mempool_transaction c st = Except.ok ((a, t), st1))
    (s2 : σ) (tr2 : List (RpcCall Addr BH))
    (h2 : mine_a_block c st1 = Except.ok ((), (s2, tr2)))
    (bh : BH) (s3 : σ) (h3 : c.best_block_hash s2 = Except.ok (bh, s3))
    (blk : Block Tx) (s4 : σ) (h4 : c.get_block bh s3 = Except.ok (blk, s4)) :
    (∀ hlen : 1 < blk.txdata.length,
      create_mined_transaction c st =
        Except.ok ((a, blk.txdata.get ⟨1, hlen⟩),
          (s4, tr2 ++ [RpcCall.bestBlockHash, RpcCall.getBlock bh]))) ∧
    (blk.txdata.length < 2 →
      create_mined_transaction c st = Except.error "index out of bounds") := by
  rw [create_mined_transaction_eq]
  constructor
  · intro hlen
    simp [h1, h2, h3, h4, List.getElem?_eq_getElem hlen]
  · intro hlen
    simp [h1, h2, h3, h4, List.getElem?_eq_none (by omega : blk.txdata.length ≤ 1)]

/-- Witness for C7 at the concrete test client, whose best block holds the
three transactions 7, 8, 9: the returned transaction is the one at index 1. -/
theorem create_mined_positional_access_witness :
    create_mined_transaction testClient (0, []) =
      Except.ok ((0, 8),
        (2, [RpcCall.newAddress, RpcCall.sendToAddress 0 1000000, RpcCall.newAddress,
          RpcCall.generateToAddress 1 1, RpcCall.bestBlockHash, RpcCall.getBlock 0])) :=
  (create_mined_positional_access testClient (0, []) 0 42
      (1, [RpcCall.newAddress, RpcCall.sendToAddress 0 1000000]) rfl 2
      [RpcCall.newAddress, RpcCall.sendToAddress 0 1000000, RpcCall.newAddress,
        RpcCall.generateToAddress 1 1] rfl 0 2 rfl ⟨[7, 8, 9]⟩ 2 rfl).1 (by decide)

/-- A client whose `new_address` RPC fails, used to evaluate the error
propagation theorem at a concrete input. -/
def failClient : Client Nat Nat Nat Nat Nat where
  new_address _ := Except.error "connection refused"
  generate_to_address _ _ s := Except.ok ([], s)
  send_to_address _ _ s := Except.ok (⟨Except.ok 42⟩, s)
  best_block_hash s := Except.ok (0, s)
  get_block _ s := Except.ok (⟨[7, 8, 9]⟩, s)

/-- C8: every setup step of the resolver and every RPC or conversion step
of the scenario driver either succeeds or immediately aborts the whole
operation with a message naming the failed step and carrying the original
error unchanged; after the first failure no further step runs and no
partial result is returned. -/
theorem first_failure_propagated {σ Addr BH Tx Txid Node : Type} :
    (∀ (wc : String → Conf → Except String Node) (d : Conf) (w : Wallet) (t : Bool) (e : String),
      _new (Except.error e) wc d w t =
        Except.error ("failed to get bitcoind executable: " ++ e)) ∧
    (∀ (wc : String → Conf → Except String Node) (d : Conf) (w : Wallet) (t : Bool)
      (exe e : String), wc exe (_new_conf d w t) = Except.error e →
      _new (Except.ok exe) wc d w t = Except.error ("failed to create node: " ++ e)) ∧
    (∀ (c : Client σ Addr BH Tx Txid) (s : σ) (tr : List (RpcCall Addr BH)) (e : String),
      c.new_address s = Except.error e →
      fund_wallet c (s, tr) = Except.error ("failed to get new address: " ++ e) ∧
      mine_a_block c (s, tr) = Except.error ("failed to get new address: " ++ e) ∧
      create_mempool_transaction c (s, tr) = Except.error ("failed to get new address: " ++ e) ∧
      create_mined_transaction c (s, tr) = Except.error ("failed to get new address: " ++ e)) ∧
    (∀ (c : Client σ Addr BH Tx Txid) (s : σ) (tr : List (RpcCall Addr BH)) (a : Addr) (s1 : σ),
      c.new_address s = Except.ok (a, s1) → ∀ e : String,
      (c.generate_to_address NBLOCKS a s1 = Except.error e →
        fund_wallet c (s, tr) = Except.error ("failed to generate to address: " ++ e)) ∧
      (c.generate_to_address 1 a s1 = Except.error e →
        mine_a_block c (s, tr) = Except.error ("failed to generate to address: " ++ e)) ∧
      (c.send_to_address a MILLION_SATS s1 = Except.error e →
        create_mempool_transaction c (s, tr) =
          Except.error ("failed to send to address: " ++ e))) ∧
    (∀ (c : Client σ Addr BH Tx Txid) (s : σ) (tr : List (RpcCall Addr BH)) (a : Addr) (s1 : σ)
      (sr : SendResult Txid) (s2 : σ), c.new_address s = Except.ok (a, s1) →
      c.send_to_address a MILLION_SATS s1 = Except.ok (sr, s2) → ∀ e : String,
      sr.txid = Except.error e →
      create_mempool_transaction c (s, tr) =
        Except.error ("failed to convert hex to txid: " ++ e)) ∧
    (∀ (c : Client σ Addr BH Tx Txid) (st : St σ Addr BH) (e : String),
      create_mempool_transaction c st = Except.error e →
      create_mined_transaction c st = Except.error e) ∧
    (∀ (c : Client σ Addr BH Tx Txid) (st : St σ Addr BH) (a : Addr) (t : Txid)
      (st1 : St σ Addr BH), create_mempool_transaction c st = Except.ok ((a, t), st1) →
      ∀ e : String, mine_a_block c st1 = Except.error e →
      create_mined_transaction c st = Except.error e) ∧
    (∀ (c : Client σ Addr BH Tx Txid) (st : St σ Addr BH) (a : Addr) (t : Txid)
      (st1 : St σ Addr BH) (u : Unit) (s2 : σ) (tr2 : List (RpcCall Addr BH)),
      create_mempool_transaction c st = Except.ok ((a, t), st1) →
      mine_a_block c st1 = Except.ok (u, (s2, tr2)) → ∀ e : String,
      (c.best_block_hash s2 = Except.error e →
        create_mined_transaction c st = Except.error ("best_block_hash: " ++ e)) ∧
      (∀ (bh : BH) (s3 : σ), c.best_block_hash s2 = Except.ok (bh, s3) →
        c.get_block bh s3 = Except.error e →
        create_mined_transaction c st = Except.error ("best_block: " ++ e))) := by
  refine ⟨?_, ?_, ?_, ?_, ?_, ?_, ?_, ?_⟩
  · intro wc d w t e
    simp [_new, expect, Except.bind, bind]
  · intro wc d w t exe e h
    simp [_new, expect, Except.bind, bind, h]
  · intro c s tr e h
    refine ⟨?_, ?_, ?_, ?_⟩
    · rw [fund_wallet_eq]; simp [h]
    · rw [mine_a_block_eq]; simp [h]
    · rw [create_mempool_transaction_eq]; simp [h]
    · rw [create_mined_transaction_eq, create_mempool_transaction_eq]; simp [h]
  · intro c s tr a s1 h1 e
    refine ⟨?_, ?_, ?_⟩
    · intro h2; rw [fund_wallet_eq]; simp [h1, h2]
    · intro h2; rw [mine_a_block_eq]; simp [h1, h2]
    · intro h2; rw [create_mempool_transaction_eq]; simp [h1, h2]
  · intro c s tr a s1 sr s2 h1 h2 e h3
    rw [create_mempool_transaction_eq]; simp [h1, h2, h3]
  · intro c st e h
    rw [create_mined_transaction_eq]; simp [h]
  · intro c st a t st1 h1 e h2
    rw [create_mined_transaction_eq]; simp [h1, h2]
  · intro c st a t st1 u s2 tr2 h1 h2 e
    constructor
    · intro h3
      rw [create_mined_transaction_eq]; simp [h1, h2, h3]
    · intro bh s3 h3 h4
      rw [create_mined_transaction_eq]; simp [h1, h2, h3, h4]

/-- Witness for C8: a failed executable lookup, a failed spawn, and a
failed `new_address` RPC each abort the operation with the message naming
that step around the untouched error. -/
theorem first_failure_propagated_witness :
    _new (Except.error "boom") (fun _ _ => (Except.ok 0 : Except String Nat)) default_conf
        Wallet.Default false = Except.error "failed to get bitcoind executable: boom" ∧
    _new (Except.ok "exe") (fun _ _ => (Except.error "spawn failed" : Except String Nat))
        default_conf Wallet.None true = Except.error "failed to create node: spawn failed" ∧
    fund_wallet failClient (0, []) =
      Except.error "failed to get new address: connection refused" :=
  ⟨(@first_failure_propagated Nat Nat Nat Nat Nat Nat).1 (fun _ _ => Except.ok 0) default_conf
      Wallet.Default false "boom",
    (@first_failure_propagated Nat Nat Nat Nat Nat Nat).2.1 (fun _ _ => Except.error "spawn failed")
      default_conf Wallet.None true "exe" "spawn failed" rfl,
    ((@first_failure_propagated Nat Nat Nat Nat Nat Nat).2.2.1 failClient 0 [] "connection refused"
      rfl).1⟩
